import Mathlib

set_option maxHeartbeats 1000000

/-!
Shallow embedding of the `hg::HexagonClient` protocol engine, translated from
`src/src/SSVOpenHexagon/Core/HexagonClient.cpp` and
`src/include/SSVOpenHexagon/Core/HexagonClient.hpp`.

The C++ class mutates its own fields and talks to an SFML TCP socket; here the
client is embedded as explicit state passing over a `Client` record, wrapped in
an `Eff` record that additionally instruments the observable effects of a call:
the list of packets handed to the socket layer (`sent`) and the sequence of
assignments to the `_state` field (`stateWrites`).  All behavior of the
external world (socket connect outcome, per-try socket send/receive statuses,
encrypted-packet construction, the wall clock, and the inbound frame) is
supplied by an `Env` record, so every operation is a pure function of
`Env × Eff`.
-/

namespace HexagonClient

/-- `HexagonClient::State` (HexagonClient.hpp, lines 36-44). -/
inductive State where
  | Disconnected
  | InitError
  | Connecting
  | ConnectionError
  | Connected
  | LoggedIn
deriving DecidableEq

/-- Results of `sf::TcpSocket::send` and `sf::TcpSocket::receive` that the
client code inspects.  `Incomplete` embeds the transient incomplete status
(`sf::Socket::Status::Partial` in SFML). -/
inductive SocketStatus where
  | Done
  | NotReady
  | Incomplete
  | Error
  | Disconnected
deriving DecidableEq

/-- `SodiumPSKeys` (persistent client key pair); key byte arrays are abstracted
as naturals. -/
structure SodiumPSKeys where
  keyPublic : Nat
  keySecret : Nat
deriving DecidableEq

/-- `SodiumRTKeys` (session receive/transmit keys). -/
structure SodiumRTKeys where
  keyReceive : Nat
  keyTransmit : Nat
deriving DecidableEq

/-- `Database::ProcessedScore`; opaque to the client code, abstracted to one
field. -/
structure ProcessedScore where
  raw : Nat
deriving DecidableEq

/-- `hg::replay_file`; only its level id is observable in the client code. -/
structure ReplayFile where
  levelId : String
deriving DecidableEq

/-- `HexagonClient::Event` variants (HexagonClient.hpp, lines 47-78). -/
inductive Event where
  | EConnectionSuccess
  | EConnectionFailure (error : String)
  | EKicked
  | ERegistrationSuccess
  | ERegistrationFailure (error : String)
  | ELoginSuccess
  | ELoginFailure (error : String)
  | ELogoutSuccess
  | ELogoutFailure
  | EDeleteAccountSuccess
  | EDeleteAccountFailure (error : String)
  | EReceivedTopScores (levelValidator : String) (scores : List ProcessedScore)
  | EReceivedOwnScore (levelValidator : String) (score : ProcessedScore)
  | EReceivedLevelScoresUnsupported (levelValidator : String)
deriving DecidableEq

/-- Client-to-server message variants (`CTSPHeartbeat`, `CTSPDisconnect`,
`CTSPPublicKey`, `CTSPRegister`, ...). -/
inductive CTSPMsg where
  | Heartbeat
  | Disconnect
  | PublicKey (key : Nat)
  | Register (steamId : Nat) (name : String) (passwordHash : String)
  | Login (steamId : Nat) (name : String) (passwordHash : String)
  | Logout (steamId : Nat)
  | DeleteAccount (steamId : Nat) (passwordHash : String)
  | RequestTopScores (loginToken : Nat) (levelValidator : String)
  | Replay (loginToken : Nat) (replayFile : ReplayFile)
  | RequestOwnScore (loginToken : Nat) (levelValidator : String)
  | RequestTopScoresAndOwnScore (loginToken : Nat) (levelValidator : String)
  | StartedGame (loginToken : Nat) (levelValidator : String)
deriving DecidableEq

/-- Server-to-client message variants (`STCPKick`, `STCPPublicKey`, ...). -/
inductive STCPMsg where
  | Kick
  | PublicKey (key : Nat)
  | RegistrationSuccess
  | RegistrationFailure (error : String)
  | LoginSuccess (loginToken : Nat) (loginName : String)
  | LoginFailure (error : String)
  | LogoutSuccess
  | LogoutFailure
  | DeleteAccountSuccess
  | DeleteAccountFailure (error : String)
  | TopScores (levelValidator : String) (scores : List ProcessedScore)
  | OwnScore (levelValidator : String) (score : ProcessedScore)
  | TopScoresAndOwnScore (levelValidator : String) (scores : List ProcessedScore)
      (ownScore : Option ProcessedScore)
deriving DecidableEq

/-- Modelled from the spec: the shape of one inbound transport frame as seen by
the outer decode phase of the packet codec (spec section 4.3).  A frame is a
plaintext control message, an authenticated-encryption envelope sealed with the
server's transmit key, or an unrecognizable frame.  The codec implementation
(`decodeServerToClientPacket` in `Online/Shared`) is not under `src/`. -/
inductive WireMsg where
  | plain (m : STCPMsg)
  | encryptedEnvelope (sealedWith : Nat) (inner : STCPMsg)
  | malformed (details : String)
deriving DecidableEq

/-- `PVServerToClient`, the result of decoding one inbound packet: an explicit
invalid variant carrying a diagnostic, an undecrypted encrypted envelope, or a
decoded typed message. -/
inductive PVServerToClient where
  | PInvalid (details : String)
  | PEncryptedMsg
  | stcp (m : STCPMsg)
deriving DecidableEq

/-- Outcome of the bounded-retry receive primitive: success, plain failure
(not-ready or retries exhausted, no side effect), or fatal failure
(`sf::Socket::Status::Error` or a peer disconnect), which in the source calls
`disconnect()` before reporting failure. -/
inductive RecvOutcome where
  | success
  | failure
  | fatalDisconnect
deriving DecidableEq

/-- The mutable fields of `hg::HexagonClient` that the protocol logic reads or
writes (HexagonClient.hpp, lines 84-110).  The socket object itself is
abstracted into `socketConnected` plus the `Env` oracle; the packet buffer and
error stream carry no protocol state. -/
structure Client where
  ticketSteamID : Option Nat
  socketConnected : Bool
  lastHeartbeatTime : Nat
  verbose : Bool
  clientPSKeys : SodiumPSKeys
  serverPublicKey : Option Nat
  clientRTKeys : Option SodiumRTKeys
  state : State
  loginToken : Option Nat
  loginName : Option String
  events : List Event
deriving DecidableEq

/-- A client together with the instrumented observable effects of the ongoing
call sequence: `sent` lists every packet handed to `sendPacket` (each such
packet causes at least one `socket.send` invocation), `stateWrites` records
every assignment to `_state`, and `si` counts `sendPacket` invocations (used to
index the per-call oracle in `Env`). -/
structure Eff where
  client : Client
  sent : List CTSPMsg
  stateWrites : List State
  si : Nat
deriving DecidableEq

/-- The environment oracle: behavior of the socket and of the inbound wire.
`sendStatus i j` is the status of the `j`-th `socket.send` try inside the
`i`-th `sendPacket` call; `recvStatus j` is the status of the `j`-th
`socket.receive` try; `connectOk` is the outcome of the blocking TCP connect;
`encryptOk i` tells whether building the encrypted packet for the `i`-th
`sendPacket` call succeeds; `now` is the clock reading; `wire` is the inbound
frame available to the receive path. -/
structure Env where
  connectOk : Bool
  sendStatus : Nat → Nat → SocketStatus
  recvStatus : Nat → SocketStatus
  encryptOk : Nat → Bool
  now : Nat
  wire : WireMsg

/-- Construction-time environment: validity of the configured server address
(`_serverIp != sf::IpAddress::None`), the outcome of
`initializeTicketSteamID`, and the Steam id it yields on success. -/
structure InitEnv where
  serverIpValid : Bool
  ticketOk : Bool
  steamId : Nat

def strEmpty : String := ""

def connectErrPrefix : String := "Failure connecting, error "

def reasonTcp : String := "initializing TCP socket"

def reasonHeartbeat : String := "sending first heartbeat"

def reasonPublicKey : String := "sending public key"

def regFailMsg : String := "Name or password fields too long or empty"

def decodeErrNoKey : String := "Cannot decode encrypted message without receive key"

def decodeErrAuth : String := "Failure decrypting encrypted message"

def saltDefault : String := "salt"

def hashTag : String := "sodium-hash:"

def wordEmpty : String := "empty"

def wordTooLong : String := "too long"

def nameW : String := "player"

def pwAbc : String := "abc"

def levelW : String := "level_validator"

/-- Record an assignment `_state = s`. -/
def setState (e : Eff) (s : State) : Eff :=
  { e with client := { e.client with state := s },
           stateWrites := e.stateWrites ++ [s] }

/-- `HexagonClient::addEvent`: `_events.push_back(e)`. -/
def addEventE (e : Eff) (ev : Event) : Eff :=
  { e with client := { e.client with events := e.client.events ++ [ev] } }

/-- Boolean test that `pat` is a prefix of `s` (over character lists). -/
def charListPrefix : List Char → List Char → Bool
  | [], _ => true
  | _ :: _, [] => false
  | a :: as, b :: bs => a == b && charListPrefix as bs

/-- Boolean test that `pat` occurs as a contiguous substring of `s`. -/
def charListContains : List Char → List Char → Bool
  | [], pat => charListPrefix pat []
  | c :: rest, pat => charListPrefix pat (c :: rest) || charListContains rest pat

/-- Modelled from the spec: `sodiumHash` (from `Online/Sodium`, not under
`src/`) is an opaque deterministic hash; represented by tagging the input. -/
def sodiumHash (s : String) : String :=
  hashTag ++ s

/-- `hashPwd` (HexagonClient.cpp, lines 747-759): salt the password with the
build-time secret salt (default when unavailable) and hash it. -/
def hashPwd (password : String) : String :=
  sodiumHash (saltDefault ++ password)

/-- Modelled from the spec: `calculateClientSessionSodiumRTKeys` (from
`Online/Sodium`, not under `src/`) deterministically derives the pair of
directional session keys from the client key pair and the server public key;
represented by an injective pairing of the inputs, always succeeding. -/
def calculateClientSessionSodiumRTKeys (ps : SodiumPSKeys) (serverKey : Nat) :
    Option SodiumRTKeys :=
  some { keyReceive := ps.keySecret + serverKey,
         keyTransmit := ps.keySecret + serverKey + 1 }

/-- Body of `HexagonClient::sendPacketRecursive` (HexagonClient.cpp, lines
115-147).  The source guard `tries > 5` bounds the recursion: the body runs
only for `tries` in `0..5`, so it is embedded structurally with fuel
`6 - tries`. -/
def sendPacketGo (statusOf : Nat → SocketStatus) : Nat → Nat → Bool
  | 0, _tries => false
  | fuel + 1, tries =>
    match statusOf tries with
    | SocketStatus.NotReady => false
    | SocketStatus.Error => false
    | SocketStatus.Disconnected => false
    | SocketStatus.Done => true
    | SocketStatus.Incomplete => sendPacketGo statusOf fuel (tries + 1)

/-- `HexagonClient::sendPacketRecursive`: note that on a fatal status (hard
error or peer disconnect) it only logs and returns false; unlike the receive
primitive it never calls `disconnect()`. -/
def sendPacketRecursive (statusOf : Nat → SocketStatus) (tries : Nat) : Bool :=
  sendPacketGo statusOf (6 - tries) tries

/-- Body of `HexagonClient::recvPacketRecursive` (HexagonClient.cpp, lines
149-187), with the same fuel embedding of the `tries > 5` guard.  A hard error
or a peer disconnect yields `fatalDisconnect`: the source calls `disconnect()`
there before returning false, which the caller below applies. -/
def recvPacketGo (statusOf : Nat → SocketStatus) : Nat → Nat → RecvOutcome
  | 0, _tries => RecvOutcome.failure
  | fuel + 1, tries =>
    match statusOf tries with
    | SocketStatus.NotReady => RecvOutcome.failure
    | SocketStatus.Error => RecvOutcome.fatalDisconnect
    | SocketStatus.Disconnected => RecvOutcome.fatalDisconnect
    | SocketStatus.Done => RecvOutcome.success
    | SocketStatus.Incomplete => recvPacketGo statusOf fuel (tries + 1)

/-- `HexagonClient::recvPacketRecursive`, starting at the given try count. -/
def recvPacketRecursive (statusOf : Nat → SocketStatus) (tries : Nat) : RecvOutcome :=
  recvPacketGo statusOf (6 - tries) tries

/-- `HexagonClient::sendPacket`: `sendPacketRecursive(0, p)`.  The message is
recorded in `sent` (the socket layer is always invoked at least once, since the
first try has `tries = 0`), and the send-call counter advances. -/
def sendPacket (env : Env) (e : Eff) (m : CTSPMsg) : Bool × Eff :=
  (sendPacketRecursive (env.sendStatus e.si) 0,
    { e with sent := e.sent ++ [m], si := e.si + 1 })

/-- `HexagonClient::recvPacket`: `recvPacketRecursive(0, p)`. -/
def recvPacket (env : Env) : RecvOutcome :=
  recvPacketRecursive env.recvStatus 0

/-- `HexagonClient::sendUnencrypted` (HexagonClient.cpp, lines 199-209). -/
def sendUnencrypted (env : Env) (e : Eff) (m : CTSPMsg) : Bool × Eff :=
  if e.client.socketConnected = false then (false, e)
  else sendPacket env e m

/-- `HexagonClient::sendEncrypted` (HexagonClient.cpp, lines 211-231): fails
without touching the socket when the socket is down, when the session RT keys
are absent, or when building the encrypted packet fails. -/
def sendEncrypted (env : Env) (e : Eff) (m : CTSPMsg) : Bool × Eff :=
  if e.client.socketConnected = false then (false, e)
  else
    match e.client.clientRTKeys with
    | none => (false, e)
    | some _ =>
      if env.encryptOk e.si = false then (false, e)
      else sendPacket env e m

/-- `HexagonClient::sendHeartbeat` (HexagonClient.cpp, lines 233-242):
on success the last-heartbeat timestamp is refreshed to the current clock. -/
def sendHeartbeat (env : Env) (e : Eff) : Bool × Eff :=
  let r := sendUnencrypted env e CTSPMsg.Heartbeat
  if r.1 = false then (false, r.2)
  else (true, { r.2 with client := { r.2.client with lastHeartbeatTime := env.now } })

/-- `HexagonClient::sendDisconnect`. -/
def sendDisconnect (env : Env) (e : Eff) : Bool × Eff :=
  sendUnencrypted env e CTSPMsg.Disconnect

/-- `HexagonClient::sendPublicKey`. -/
def sendPublicKey (env : Env) (e : Eff) : Bool × Eff :=
  sendUnencrypted env e (CTSPMsg.PublicKey e.client.clientPSKeys.keyPublic)

/-- `HexagonClient::sendRegister`. -/
def sendRegister (env : Env) (e : Eff) (steamId : Nat)
    (name passwordHash : String) : Bool × Eff :=
  sendEncrypted env e (CTSPMsg.Register steamId name passwordHash)

/-- `HexagonClient::sendLogin`. -/
def sendLogin (env : Env) (e : Eff) (steamId : Nat)
    (name passwordHash : String) : Bool × Eff :=
  sendEncrypted env e (CTSPMsg.Login steamId name passwordHash)

/-- `HexagonClient::sendLogout`. -/
def sendLogout (env : Env) (e : Eff) (steamId : Nat) : Bool × Eff :=
  sendEncrypted env e (CTSPMsg.Logout steamId)

/-- `HexagonClient::sendDeleteAccount`. -/
def sendDeleteAccount (env : Env) (e : Eff) (steamId : Nat)
    (passwordHash : String) : Bool × Eff :=
  sendEncrypted env e (CTSPMsg.DeleteAccount steamId passwordHash)

/-- `HexagonClient::sendRequestTopScores`. -/
def sendRequestTopScores (env : Env) (e : Eff) (loginToken : Nat)
    (levelValidator : String) : Bool × Eff :=
  sendEncrypted env e (CTSPMsg.RequestTopScores loginToken levelValidator)

/-- `HexagonClient::sendReplay`. -/
def sendReplay (env : Env) (e : Eff) (loginToken : Nat)
    (replayFile : ReplayFile) : Bool × Eff :=
  sendEncrypted env e (CTSPMsg.Replay loginToken replayFile)

/-- `HexagonClient::sendRequestOwnScore`. -/
def sendRequestOwnScore (env : Env) (e : Eff) (loginToken : Nat)
    (levelValidator : String) : Bool × Eff :=
  sendEncrypted env e (CTSPMsg.RequestOwnScore loginToken levelValidator)

/-- `HexagonClient::sendRequestTopScoresAndOwnScore`. -/
def sendRequestTopScoresAndOwnScore (env : Env) (e : Eff) (loginToken : Nat)
    (levelValidator : String) : Bool × Eff :=
  sendEncrypted env e (CTSPMsg.RequestTopScoresAndOwnScore loginToken levelValidator)

/-- `HexagonClient::sendStartedGame`. -/
def sendStartedGame (env : Env) (e : Eff) (loginToken : Nat)
    (levelValidator : String) : Bool × Eff :=
  sendEncrypted env e (CTSPMsg.StartedGame loginToken levelValidator)

/-- `HexagonClient::connectedAndInState` (HexagonClient.cpp, lines 896-900). -/
def connectedAndInState (c : Client) (s : State) : Bool :=
  c.socketConnected && (c.state == s)

/-- `HexagonClient::initializeTcpSocket` (HexagonClient.cpp, lines 89-113):
fails if the socket is already connected; otherwise performs the bounded
blocking connect (outcome from `Env`) and records the connectivity flag. -/
def initializeTcpSocket (env : Env) (e : Eff) : Bool × Eff :=
  if e.client.socketConnected = true then (false, e)
  else if env.connectOk = false then
    (false, { e with client := { e.client with socketConnected := false } })
  else
    (true, { e with client := { e.client with socketConnected := true } })

/-- The `failEvent` lambda inside `HexagonClient::connect` (HexagonClient.cpp,
lines 377-386): queue a connection-failure event with the prefixed reason and
move to `ConnectionError`. -/
def connectFailEvent (reason : String) (e : Eff) : Bool × Eff :=
  (false,
    setState (addEventE e (Event.EConnectionFailure (connectErrPrefix ++ reason)))
      State.ConnectionError)

/-- `HexagonClient::connect` (HexagonClient.cpp, lines 368-406).  Note the
source sets `_state = State::Connecting` before the already-connected guard,
and that guard path returns false without an event and without moving to
`ConnectionError`. -/
def connect (env : Env) (e : Eff) : Bool × Eff :=
  let e0 := setState e State.Connecting
  if e0.client.socketConnected = true then (false, e0)
  else
    let r1 := initializeTcpSocket env e0
    if r1.1 = false then connectFailEvent reasonTcp r1.2
    else
      let r2 := sendHeartbeat env r1.2
      if r2.1 = false then connectFailEvent reasonHeartbeat r2.2
      else
        let r3 := sendPublicKey env r2.2
        if r3.1 = false then connectFailEvent reasonPublicKey r3.2
        else
          (true, setState (addEventE r3.2 Event.EConnectionSuccess) State.Connected)

/-- The field initializers of the `HexagonClient` constructor (HexagonClient.cpp,
lines 408-424). -/
def initialClient (ps : SodiumPSKeys) : Client :=
  { ticketSteamID := none
    socketConnected := false
    lastHeartbeatTime := 0
    verbose := true
    clientPSKeys := ps
    serverPublicKey := none
    clientRTKeys := none
    state := State.Disconnected
    loginToken := none
    loginName := none
    events := [] }

/-- A freshly initialized client with empty effect instrumentation. -/
def initialEff (ps : SodiumPSKeys) : Eff :=
  { client := initialClient ps, sent := [], stateWrites := [], si := 0 }

/-- The `HexagonClient` constructor body (HexagonClient.cpp, lines 408-453):
an invalid server address or a failed Steam ticket validation sets `InitError`
and returns without attempting a connection; otherwise the ticket Steam id is
stored and `connect()` is called. -/
def construct (ienv : InitEnv) (env : Env) (ps : SodiumPSKeys) : Eff :=
  let e := initialEff ps
  if ienv.serverIpValid = false then setState e State.InitError
  else if ienv.ticketOk = false then setState e State.InitError
  else
    let e1 := { e with client := { e.client with ticketSteamID := some ienv.steamId } }
    (connect env e1).2

/-- `HexagonClient::disconnect` (HexagonClient.cpp, lines 462-484): best-effort
logout when logged in with a ticket, best-effort disconnect notice when
connected or logged in, then drop the socket and set `Disconnected`.  The
login token and login name are not touched. -/
def disconnect (env : Env) (e : Eff) : Eff :=
  let e1 :=
    if e.client.state = State.LoggedIn ∧ e.client.ticketSteamID.isSome = true then
      (sendLogout env e (e.client.ticketSteamID.getD 0)).2
    else e
  let e2 :=
    if e1.client.state = State.Connected ∨ e1.client.state = State.LoggedIn then
      (sendDisconnect env e1).2
    else e1
  let e3 := { e2 with client := { e2.client with socketConnected := false } }
  setState e3 State.Disconnected

/-- `HexagonClient::sendHeartbeatIfNecessary` (HexagonClient.cpp, lines
486-508): when connected and more than 45 seconds have elapsed since the last
heartbeat, send one; a failed heartbeat forces a disconnect. -/
def sendHeartbeatIfNecessary (env : Env) (e : Eff) : Bool × Eff :=
  if e.client.socketConnected = false then (true, e)
  else if 45 < env.now - e.client.lastHeartbeatTime then
    let r := sendHeartbeat env e
    if r.1 = false then (false, disconnect env r.2)
    else (true, r.2)
  else (true, e)

/-- Modelled from the spec: `decodeServerToClientPacket` (from `Online/Shared`,
not under `src/`), spec section 4.3.  The outer decode distinguishes plaintext
control messages from encrypted envelopes; decoding an envelope requires the
current receive key and yields the explicit invalid variant when the key is
absent, when the frame is unrecognizable, or when authenticated decryption
fails (modelled as a key mismatch). -/
def decodeServerToClientPacket (keyReceive : Option Nat) (w : WireMsg) :
    PVServerToClient :=
  match w with
  | WireMsg.malformed details => PVServerToClient.PInvalid details
  | WireMsg.plain m => PVServerToClient.stcp m
  | WireMsg.encryptedEnvelope sealedWith inner =>
    match keyReceive with
    | none => PVServerToClient.PInvalid decodeErrNoKey
    | some k =>
      if k = sealedWith then PVServerToClient.stcp inner
      else PVServerToClient.PInvalid decodeErrAuth

/-- The `Utils::match` handler block of `HexagonClient::receiveDataFromServer`
(HexagonClient.cpp, lines 527-722), one case per decoded message. -/
def handleSTCP (env : Env) (e : Eff) (m : STCPMsg) : Bool × Eff :=
  match m with
  | STCPMsg.Kick =>
    (true, disconnect env (addEventE e Event.EKicked))
  | STCPMsg.PublicKey k =>
    let e1 := { e with client := { e.client with serverPublicKey := some k } }
    match calculateClientSessionSodiumRTKeys e1.client.clientPSKeys k with
    | none =>
      let e2 := { e1 with client := { e1.client with clientRTKeys := none } }
      (false, disconnect env e2)
    | some rt =>
      (true, { e1 with client := { e1.client with clientRTKeys := some rt } })
  | STCPMsg.RegistrationSuccess =>
    (true, addEventE e Event.ERegistrationSuccess)
  | STCPMsg.RegistrationFailure err =>
    (true, addEventE e (Event.ERegistrationFailure err))
  | STCPMsg.LoginSuccess tok name =>
    let e1 := { e with client :=
      { e.client with loginToken := some tok, loginName := some name } }
    let e2 := setState e1 State.LoggedIn
    (true, addEventE e2 Event.ELoginSuccess)
  | STCPMsg.LoginFailure err =>
    (true, addEventE e (Event.ELoginFailure err))
  | STCPMsg.LogoutSuccess =>
    (true, addEventE e Event.ELogoutSuccess)
  | STCPMsg.LogoutFailure =>
    (true, addEventE e Event.ELogoutFailure)
  | STCPMsg.DeleteAccountSuccess =>
    (true, addEventE e Event.EDeleteAccountSuccess)
  | STCPMsg.DeleteAccountFailure err =>
    (true, addEventE e (Event.EDeleteAccountFailure err))
  | STCPMsg.TopScores lv scores =>
    (true, addEventE e (Event.EReceivedTopScores lv scores))
  | STCPMsg.OwnScore lv sc =>
    (true, addEventE e (Event.EReceivedOwnScore lv sc))
  | STCPMsg.TopScoresAndOwnScore lv scores ownScore =>
    let e1 := addEventE e (Event.EReceivedTopScores lv scores)
    match ownScore with
    | some sc => (true, addEventE e1 (Event.EReceivedOwnScore lv sc))
    | none => (true, e1)

/-- `HexagonClient::receiveDataFromServer` (HexagonClient.cpp, lines 510-723):
fail when the socket is down; receive one packet with bounded retries (a fatal
receive already disconnected the client inside the primitive); decode it with
the current receive key if any; dispatch on the decoded variant. -/
def receiveDataFromServer (env : Env) (e : Eff) : Bool × Eff :=
  if e.client.socketConnected = false then (false, e)
  else
    match recvPacket env with
    | RecvOutcome.failure => (false, e)
    | RecvOutcome.fatalDisconnect => (false, disconnect env e)
    | RecvOutcome.success =>
      match decodeServerToClientPacket
          (Option.map SodiumRTKeys.keyReceive e.client.clientRTKeys) env.wire with
      | PVServerToClient.PInvalid _ => (false, e)
      | PVServerToClient.PEncryptedMsg => (false, e)
      | PVServerToClient.stcp m => handleSTCP env e m

/-- `HexagonClient::update` (HexagonClient.cpp, lines 725-745): an immediate
no-op when the socket is not connected; otherwise heartbeat bookkeeping then a
non-blocking receive attempt. -/
def update (env : Env) (e : Eff) : Eff :=
  if e.client.socketConnected = false then e
  else
    let e1 := (sendHeartbeatIfNecessary env e).2
    (receiveDataFromServer env e1).2

/-- `HexagonClient::tryRegister` (HexagonClient.cpp, lines 761-778). -/
def tryRegister (env : Env) (e : Eff) (name password : String) : Bool × Eff :=
  if connectedAndInState e.client State.Connected = false then (false, e)
  else if name.isEmpty = true ∨ 32 < name.utf8ByteSize ∨ password.isEmpty = true then
    (false, addEventE e (Event.ERegistrationFailure regFailMsg))
  else
    sendRegister env e (e.client.ticketSteamID.getD 0) name (hashPwd password)

/-- `HexagonClient::tryLogin` (HexagonClient.cpp, lines 780-796). -/
def tryLogin (env : Env) (e : Eff) (name password : String) : Bool × Eff :=
  if connectedAndInState e.client State.Connected = false then (false, e)
  else if name.isEmpty = true ∨ 32 < name.utf8ByteSize ∨ password.isEmpty = true then
    (false, addEventE e (Event.ELoginFailure regFailMsg))
  else
    sendLogin env e (e.client.ticketSteamID.getD 0) name (hashPwd password)

/-- `HexagonClient::tryLogoutFromServer` (HexagonClient.cpp, lines 798-811):
the client-side logout (state back to `Connected`, token and name cleared)
happens before the logout message is sent; the return value is the send
outcome. -/
def tryLogoutFromServer (env : Env) (e : Eff) : Bool × Eff :=
  if connectedAndInState e.client State.LoggedIn = false then (false, e)
  else
    let e1 := setState e State.Connected
    let e2 := { e1 with client :=
      { e1.client with loginToken := none, loginName := none } }
    sendLogout env e2 (e2.client.ticketSteamID.getD 0)

/-- `HexagonClient::tryDeleteAccount` (HexagonClient.cpp, lines 813-822). -/
def tryDeleteAccount (env : Env) (e : Eff) (password : String) : Bool × Eff :=
  if connectedAndInState e.client State.Connected = false then (false, e)
  else sendDeleteAccount env e (e.client.ticketSteamID.getD 0) (hashPwd password)

/-- `HexagonClient::tryRequestTopScores` (HexagonClient.cpp, lines 824-833). -/
def tryRequestTopScores (env : Env) (e : Eff) (levelValidator : String) : Bool × Eff :=
  if connectedAndInState e.client State.LoggedIn = false then (false, e)
  else sendRequestTopScores env e (e.client.loginToken.getD 0) levelValidator

/-- `HexagonClient::trySendReplay` (HexagonClient.cpp, lines 835-844). -/
def trySendReplay (env : Env) (e : Eff) (replayFile : ReplayFile) : Bool × Eff :=
  if connectedAndInState e.client State.LoggedIn = false then (false, e)
  else sendReplay env e (e.client.loginToken.getD 0) replayFile

/-- `HexagonClient::tryRequestOwnScore` (HexagonClient.cpp, lines 846-855). -/
def tryRequestOwnScore (env : Env) (e : Eff) (levelValidator : String) : Bool × Eff :=
  if connectedAndInState e.client State.LoggedIn = false then (false, e)
  else sendRequestOwnScore env e (e.client.loginToken.getD 0) levelValidator

/-- `HexagonClient::tryRequestTopScoresAndOwnScore` (HexagonClient.cpp, lines
857-867). -/
def tryRequestTopScoresAndOwnScore (env : Env) (e : Eff)
    (levelValidator : String) : Bool × Eff :=
  if connectedAndInState e.client State.LoggedIn = false then (false, e)
  else sendRequestTopScoresAndOwnScore env e (e.client.loginToken.getD 0) levelValidator

/-- `HexagonClient::trySendStartedGame` (HexagonClient.cpp, lines 869-878). -/
def trySendStartedGame (env : Env) (e : Eff) (levelValidator : String) : Bool × Eff :=
  if connectedAndInState e.client State.LoggedIn = false then (false, e)
  else sendStartedGame env e (e.client.loginToken.getD 0) levelValidator

/-- `HexagonClient::getState`. -/
def getState (c : Client) : State :=
  c.state

/-- `HexagonClient::getLoginName`. -/
def getLoginName (c : Client) : Option String :=
  c.loginName

/-- `HexagonClient::pollEvent` (HexagonClient.cpp, lines 902-911). -/
def pollEvent (c : Client) : Option Event × Client :=
  match c.events with
  | [] => (none, c)
  | ev :: rest => (some ev, { c with events := rest })

/-- A sample persistent key pair. -/
def psk0 : SodiumPSKeys := { keyPublic := 1, keySecret := 2 }

/-- Construction environment of a fully successful initialization. -/
def ienvGood : InitEnv := { serverIpValid := true, ticketOk := true, steamId := 42 }

/-- Construction environment where the server address parses but the Steam
ticket validation fails, producing `InitError`. -/
def ienvNoTicket : InitEnv := { serverIpValid := true, ticketOk := false, steamId := 0 }

/-- An environment in which every socket operation succeeds immediately. -/
def envAllDone : Env :=
  { connectOk := true
    sendStatus := fun _ _ => SocketStatus.Done
    recvStatus := fun _ => SocketStatus.Done
    encryptOk := fun _ => true
    now := 100
    wire := WireMsg.plain STCPMsg.LogoutSuccess }

/-- An environment where every `socket.send` reports that the peer closed the
connection (a fatal send failure). -/
def envSendFatal : Env :=
  { envAllDone with sendStatus := fun _ _ => SocketStatus.Disconnected }

/-- An environment where every `socket.receive` reports a hard error (a fatal
receive failure). -/
def envRecvFatal : Env :=
  { envAllDone with recvStatus := fun _ => SocketStatus.Error }

/-- An environment delivering the server public key `5`. -/
def envPubKeyWire : Env :=
  { envAllDone with wire := WireMsg.plain (STCPMsg.PublicKey 5) }

/-- An environment delivering an encrypted login-success envelope sealed with
key `7`, the receive key derived from `psk0` and server key `5`. -/
def envLoginWire : Env :=
  { envAllDone with wire := WireMsg.encryptedEnvelope 7 (STCPMsg.LoginSuccess 9 nameW) }

/-- An environment delivering an encrypted envelope while the client holds no
session keys. -/
def envEncNoKeys : Env :=
  { envAllDone with wire := WireMsg.encryptedEnvelope 7 STCPMsg.LogoutSuccess }

/-- A freshly initialized, not yet connected client holding a validated
ticket Steam id (the situation right before the constructor calls
`connect()`). -/
def effFresh : Eff :=
  { client := { initialClient psk0 with ticketSteamID := some 42 }
    sent := [], stateWrites := [], si := 0 }

/-- The client produced by a fully successful construction: `Connected` with a
connected socket, no session keys yet. -/
def effConn : Eff := construct ienvGood envAllDone psk0

/-- `effConn` after receiving the server public key: session keys present. -/
def effWithKeys : Eff := (receiveDataFromServer envPubKeyWire effConn).2

/-- `effWithKeys` after receiving an encrypted login success: `LoggedIn` with
login token `9` and login name `nameW`. -/
def effLoggedIn : Eff := (receiveDataFromServer envLoginWire effWithKeys).2

/-- A sample replay file. -/
def rp0 : ReplayFile := { levelId := levelW }

theorem sendPacket_client (env : Env) (e : Eff) (m : CTSPMsg) :
    (sendPacket env e m).2.client = e.client := rfl

theorem sendUnencrypted_client (env : Env) (e : Eff) (m : CTSPMsg) :
    (sendUnencrypted env e m).2.client = e.client := by
  unfold sendUnencrypted
  split
  · rfl
  · rfl

theorem sendEncrypted_client (env : Env) (e : Eff) (m : CTSPMsg) :
    (sendEncrypted env e m).2.client = e.client := by
  unfold sendEncrypted
  split
  · rfl
  · split
    · rfl
    · split
      · rfl
      · rfl

theorem sendLogout_client (env : Env) (e : Eff) (sid : Nat) :
    (sendLogout env e sid).2.client = e.client :=
  sendEncrypted_client env e (CTSPMsg.Logout sid)

theorem sendDisconnect_client (env : Env) (e : Eff) :
    (sendDisconnect env e).2.client = e.client :=
  sendUnencrypted_client env e CTSPMsg.Disconnect

theorem disconnect_client (env : Env) (e : Eff) :
    (disconnect env e).client =
      { e.client with socketConnected := false, state := State.Disconnected } := by
  unfold disconnect
  dsimp only
  split <;> split <;>
    simp [setState, sendLogout_client, sendDisconnect_client]

theorem connectedAndInState_eq_false_of_ne (c : Client) (s : State)
    (h : c.state ≠ s) : connectedAndInState c s = false := by
  unfold connectedAndInState
  simp [h]

/-- C2: every request operation requiring the `LoggedIn` state
(`tryLogoutFromServer`, `tryRequestTopScores`, `trySendReplay`,
`tryRequestOwnScore`, `tryRequestTopScoresAndOwnScore`, `trySendStartedGame`),
called while the client is in any state other than `LoggedIn`, returns false,
hands nothing to the socket, appends no events, and leaves the whole client
unchanged. -/
theorem loggedInRequests_guard (env : Env) (e : Eff) (lv : String)
    (rf : ReplayFile) (h : e.client.state ≠ State.LoggedIn) :
    tryLogoutFromServer env e = (false, e) ∧
    tryRequestTopScores env e lv = (false, e) ∧
    trySendReplay env e rf = (false, e) ∧
    tryRequestOwnScore env e lv = (false, e) ∧
    tryRequestTopScoresAndOwnScore env e lv = (false, e) ∧
    trySendStartedGame env e lv = (false, e) := by
  have hf := connectedAndInState_eq_false_of_ne e.client State.LoggedIn h
  refine ⟨?_, ?_, ?_, ?_, ?_, ?_⟩ <;>
    simp [tryLogoutFromServer, tryRequestTopScores, trySendReplay,
      tryRequestOwnScore, tryRequestTopScoresAndOwnScore, trySendStartedGame, hf]

/-- C2 witness: `trySendReplay` (and `tryLogoutFromServer`) on a client that is
`Connected` but not yet `LoggedIn` returns false with no effect at all. -/
theorem loggedInRequests_guard_witness :
    effConn.client.state ≠ State.LoggedIn ∧
    trySendReplay envAllDone effConn rp0 = (false, effConn) ∧
    tryLogoutFromServer envAllDone effConn = (false, effConn) :=
  ⟨by decide,
    (loggedInRequests_guard envAllDone effConn levelW rp0 (by decide)).2.2.1,
    (loggedInRequests_guard envAllDone effConn levelW rp0 (by decide)).1⟩

/-- C4: with session RT keys absent, `sendEncrypted` returns false without
handing anything to the socket and without any other effect, and an inbound
encrypted envelope decodes to the invalid variant, so `receiveDataFromServer`
reports failure and appends no events (no plaintext fallback).  The codec
`decodeServerToClientPacket` is modelled from the spec (section 4.3) since its
implementation is not under `src/`. -/
theorem encrypted_failClosed_withoutKeys (env : Env) (e : Eff) (m : CTSPMsg)
    (sealedWith : Nat) (inner : STCPMsg)
    (hkeys : e.client.clientRTKeys = none)
    (hwire : env.wire = WireMsg.encryptedEnvelope sealedWith inner)
    (hrecv : recvPacket env = RecvOutcome.success) :
    sendEncrypted env e m = (false, e) ∧
    receiveDataFromServer env e = (false, e) := by
  constructor
  · unfold sendEncrypted
    split
    · rfl
    · rw [hkeys]
  · unfold receiveDataFromServer
    split
    · rfl
    · rw [hrecv, hkeys, hwire]
      rfl

/-- C4 witness: a `Connected` client that has not yet received the server
public key (so RT keys are absent) rejects both an encrypted send and an
inbound encrypted envelope. -/
theorem encrypted_failClosed_withoutKeys_witness :
    effConn.client.clientRTKeys = none ∧
    sendEncrypted envEncNoKeys effConn (CTSPMsg.Logout 42) = (false, effConn) ∧
    receiveDataFromServer envEncNoKeys effConn = (false, effConn) :=
  ⟨by decide,
    (encrypted_failClosed_withoutKeys envEncNoKeys effConn (CTSPMsg.Logout 42) 7
        STCPMsg.LogoutSuccess (by decide) (by decide) (by decide)).1,
    (encrypted_failClosed_withoutKeys envEncNoKeys effConn (CTSPMsg.Logout 42) 7
        STCPMsg.LogoutSuccess (by decide) (by decide) (by decide)).2⟩

/-- C7: `disconnect()` on an already-`Disconnected` client leaves the state
`Disconnected`, hands no logout or disconnect message to the socket, and
appends no events (the embedding is a total function, so no exception can be
thrown). -/
theorem disconnect_idempotent (env : Env) (e : Eff)
    (h : e.client.state = State.Disconnected) :
    (disconnect env e).client.state = State.Disconnected ∧
    (disconnect env e).sent = e.sent ∧
    (disconnect env e).client.events = e.client.events := by
  unfold disconnect
  simp [setState, h]

/-- C7 witness: disconnecting a freshly constructed, never-connected client
(state `Disconnected`) changes nothing observable. -/
theorem disconnect_idempotent_witness :
    effFresh.client.state = State.Disconnected ∧
    (disconnect envAllDone effFresh).client.state = State.Disconnected ∧
    (disconnect envAllDone effFresh).sent = effFresh.sent ∧
    (disconnect envAllDone effFresh).client.events = effFresh.client.events :=
  ⟨by decide, (disconnect_idempotent envAllDone effFresh (by decide)).1,
    (disconnect_idempotent envAllDone effFresh (by decide)).2.1,
    (disconnect_idempotent envAllDone effFresh (by decide)).2.2⟩

/-- C8: `tryRegister` while `Connected` with a connected socket, on an empty
name, a name longer than 32 bytes, or an empty password, returns false and
appends exactly one `ERegistrationFailure` whose reason mentions both the
too-long and the empty case, handing nothing to the socket. -/
theorem tryRegister_validation (env : Env) (e : Eff) (name password : String)
    (hpre : connectedAndInState e.client State.Connected = true)
    (hval : name.isEmpty = true ∨ 32 < name.utf8ByteSize ∨ password.isEmpty = true) :
    tryRegister env e name password =
      (false, addEventE e (Event.ERegistrationFailure regFailMsg)) ∧
    charListContains regFailMsg.data wordTooLong.data = true ∧
    charListContains regFailMsg.data wordEmpty.data = true := by
  refine ⟨?_, by decide, by decide⟩
  unfold tryRegister
  rw [hpre, if_neg (by decide), if_pos hval]

/-- C8 witness: the scenario from the spec, name `""` and password `"abc"`
while `Connected`. -/
theorem tryRegister_validation_witness :
    connectedAndInState effConn.client State.Connected = true ∧
    strEmpty.isEmpty = true ∧
    tryRegister envAllDone effConn strEmpty pwAbc =
      (false, addEventE effConn (Event.ERegistrationFailure regFailMsg)) :=
  ⟨by decide, by decide,
    (tryRegister_validation envAllDone effConn strEmpty pwAbc (by decide)
        (Or.inl (by decide))).1⟩

/-- C9: `tryLogoutFromServer` while `LoggedIn` with a connected socket applies
the client-side logout before the network send: for every environment — in
particular whether or not the send of the logout message succeeds — the state
becomes `Connected`, the login token and the login name are cleared, and no
event is appended; the boolean result only reports the send outcome. -/
theorem tryLogoutFromServer_clearsBeforeSend (env : Env) (e : Eff)
    (h : connectedAndInState e.client State.LoggedIn = true) :
    (tryLogoutFromServer env e).2.client.state = State.Connected ∧
    (tryLogoutFromServer env e).2.client.loginToken = none ∧
    (tryLogoutFromServer env e).2.client.loginName = none ∧
    (tryLogoutFromServer env e).2.client.events = e.client.events := by
  unfold tryLogoutFromServer
  rw [h, if_neg (by decide)]
  simp [sendLogout_client, setState]

/-- C9 witness: logging out of a `LoggedIn` client in an environment where the
socket send fatally fails still clears the session and moves to `Connected`,
while the call itself returns false. -/
theorem tryLogoutFromServer_clearsBeforeSend_witness :
    connectedAndInState effLoggedIn.client State.LoggedIn = true ∧
    (tryLogoutFromServer envSendFatal effLoggedIn).1 = false ∧
    (tryLogoutFromServer envSendFatal effLoggedIn).2.client.state = State.Connected ∧
    (tryLogoutFromServer envSendFatal effLoggedIn).2.client.loginToken = none :=
  ⟨by decide, by decide,
    (tryLogoutFromServer_clearsBeforeSend envSendFatal effLoggedIn (by decide)).1,
    (tryLogoutFromServer_clearsBeforeSend envSendFatal effLoggedIn (by decide)).2.1⟩

/-- C10: `update()` while the socket is not connected is a complete no-op: the
whole client, including its event queue, state, session keys and login
session, and the instrumented send trace, is returned unchanged. -/
theorem update_noSocket_noop (env : Env) (e : Eff)
    (h : e.client.socketConnected = false) :
    update env e = e := by
  unfold update
  rw [if_pos h]

/-- C10 witness: updating a never-connected client changes nothing. -/
theorem update_noSocket_noop_witness :
    effFresh.client.socketConnected = false ∧
    update envAllDone effFresh = effFresh :=
  ⟨by decide, update_noSocket_noop envAllDone effFresh (by decide)⟩

/-- C1 counterexample: calling `connect()` a second time on a successfully
connected client (`effConn` is the result of a fully successful construction,
so its socket is connected) fails, yet the state is left at `Connecting` — not
`ConnectionError` — and no `EConnectionFailure` event is appended, refuting the
claim that every failing `connect()` ends in `ConnectionError` with exactly one
failure event. -/
theorem connect_alreadyConnected_counterexample :
    effConn.client.socketConnected = true ∧
    (connect envAllDone effConn).1 = false ∧
    (connect envAllDone effConn).2.client.state = State.Connecting ∧
    (connect envAllDone effConn).2.client.events = effConn.client.events ∧
    (connect envAllDone effConn).2.sent = effConn.sent := by
  decide

/-- C1 (amended): when `connect()` is called with the socket not already
connected, then on success the state is assigned `Connecting` and then
`Connected` and exactly one `EConnectionSuccess` is appended, and on failure
the state is assigned `Connecting` and then `ConnectionError` and exactly one
`EConnectionFailure` with a non-empty reason is appended; when the socket is
already connected, `connect()` returns false leaving the state at `Connecting`
with no event appended and nothing handed to the socket. -/
theorem connect_transitions_amended (env : Env) (e : Eff) :
    (e.client.socketConnected = false →
      ((connect env e).1 = true →
        (connect env e).2.stateWrites =
            e.stateWrites ++ [State.Connecting, State.Connected] ∧
        (connect env e).2.client.state = State.Connected ∧
        (connect env e).2.client.events =
            e.client.events ++ [Event.EConnectionSuccess]) ∧
      ((connect env e).1 = false →
        ∃ r, r ≠ strEmpty ∧
          (connect env e).2.stateWrites =
              e.stateWrites ++ [State.Connecting, State.ConnectionError] ∧
          (connect env e).2.client.state = State.ConnectionError ∧
          (connect env e).2.client.events =
              e.client.events ++ [Event.EConnectionFailure r])) ∧
    (e.client.socketConnected = true →
      connect env e = (false, setState e State.Connecting)) := by
  constructor
  · intro hs
    cases hC : env.connectOk with
    | false =>
      constructor
      · intro htrue
        exact absurd htrue (by
          simp [connect, initializeTcpSocket, connectFailEvent, setState,
            addEventE, hs, hC])
      · intro _
        refine ⟨connectErrPrefix ++ reasonTcp, by decide, ?_, ?_, ?_⟩ <;>
          simp [connect, initializeTcpSocket, connectFailEvent, setState,
            addEventE, hs, hC]
    | true =>
      cases hB1 : sendPacketRecursive (env.sendStatus e.si) 0 with
      | false =>
        constructor
        · intro htrue
          exact absurd htrue (by
            simp [connect, initializeTcpSocket, sendHeartbeat, sendUnencrypted,
              sendPacket, connectFailEvent, setState, addEventE, hs, hC, hB1])
        · intro _
          refine ⟨connectErrPrefix ++ reasonHeartbeat, by decide, ?_, ?_, ?_⟩ <;>
            simp [connect, initializeTcpSocket, sendHeartbeat, sendUnencrypted,
              sendPacket, connectFailEvent, setState, addEventE, hs, hC, hB1]
      | true =>
        cases hB2 : sendPacketRecursive (env.sendStatus (e.si + 1)) 0 with
        | false =>
          constructor
          · intro htrue
            exact absurd htrue (by
              simp [connect, initializeTcpSocket, sendHeartbeat, sendPublicKey,
                sendUnencrypted, sendPacket, connectFailEvent, setState,
                addEventE, hs, hC, hB1, hB2])
          · intro _
            refine ⟨connectErrPrefix ++ reasonPublicKey, by decide, ?_, ?_, ?_⟩ <;>
              simp [connect, initializeTcpSocket, sendHeartbeat, sendPublicKey,
                sendUnencrypted, sendPacket, connectFailEvent, setState,
                addEventE, hs, hC, hB1, hB2]
        | true =>
          constructor
          · intro _
            refine ⟨?_, ?_, ?_⟩ <;>
              simp [connect, initializeTcpSocket, sendHeartbeat, sendPublicKey,
                sendUnencrypted, sendPacket, connectFailEvent, setState,
                addEventE, hs, hC, hB1, hB2]
          · intro hfalse
            exact absurd hfalse (by
              simp [connect, initializeTcpSocket, sendHeartbeat, sendPublicKey,
                sendUnencrypted, sendPacket, connectFailEvent, setState,
                addEventE, hs, hC, hB1, hB2])
  · intro hs
    unfold connect
    rw [if_pos (by simp [setState, hs])]

/-- C1 witness: a fresh unconnected `Disconnected` client, connected in a fully
successful environment, writes states `Connecting` then `Connected` and queues
exactly one `EConnectionSuccess`. -/
theorem connect_transitions_amended_witness :
    effFresh.client.socketConnected = false ∧
    (connect envAllDone effFresh).2.stateWrites =
        effFresh.stateWrites ++ [State.Connecting, State.Connected] ∧
    (connect envAllDone effFresh).2.client.events =
        effFresh.client.events ++ [Event.EConnectionSuccess] :=
  ⟨by decide,
    (((connect_transitions_amended envAllDone effFresh).1 (by decide)).1 (by decide)).1,
    (((connect_transitions_amended envAllDone effFresh).1 (by decide)).1 (by decide)).2.2⟩

/-- C3 counterexample: `effLoggedIn` is a client brought to `LoggedIn` through
the public receive path (public key, then encrypted login success with token 9
and name `nameW`); `disconnect()` moves it to `Disconnected` but leaves both
the login token and the login name present, refuting the claim that disconnect
clears the login session. -/
theorem disconnect_keepsLoginSession_counterexample :
    effLoggedIn.client.state = State.LoggedIn ∧
    effLoggedIn.client.loginToken = some 9 ∧
    (disconnect envAllDone effLoggedIn).client.state = State.Disconnected ∧
    (disconnect envAllDone effLoggedIn).client.loginToken = some 9 ∧
    (disconnect envAllDone effLoggedIn).client.loginName = some nameW := by
  decide

/-- C3 (amended): the login session is created on login success (the handler
for an inbound login-success message stores token and name and moves to
`LoggedIn`) and cleared by logout (`tryLogoutFromServer` from `LoggedIn`
resets both to absent); `disconnect()`, however, leaves the login token and
login name exactly as they were, so after a disconnect from `LoggedIn` a stale
login session remains while the state is `Disconnected`. -/
theorem loginSession_lifecycle_amended (env : Env) (e : Eff) (tok : Nat)
    (name : String) :
    ((handleSTCP env e (STCPMsg.LoginSuccess tok name)).2.client.loginToken = some tok ∧
     (handleSTCP env e (STCPMsg.LoginSuccess tok name)).2.client.loginName = some name ∧
     (handleSTCP env e (STCPMsg.LoginSuccess tok name)).2.client.state = State.LoggedIn) ∧
    (connectedAndInState e.client State.LoggedIn = true →
      (tryLogoutFromServer env e).2.client.loginToken = none ∧
      (tryLogoutFromServer env e).2.client.loginName = none) ∧
    ((disconnect env e).client.loginToken = e.client.loginToken ∧
     (disconnect env e).client.loginName = e.client.loginName) := by
  refine ⟨?_, ?_, ?_⟩
  · simp [handleSTCP, setState, addEventE]
  · intro h
    unfold tryLogoutFromServer
    rw [h, if_neg (by decide)]
    simp [sendLogout_client, setState]
  · have hd := disconnect_client env e
    constructor <;> simp [hd]

/-- C3 witness: the lifecycle theorem instantiated on the logged-in client:
logout clears the session, and disconnect preserves whatever session fields
are present. -/
theorem loginSession_lifecycle_amended_witness :
    connectedAndInState effLoggedIn.client State.LoggedIn = true ∧
    (tryLogoutFromServer envAllDone effLoggedIn).2.client.loginToken = none ∧
    (disconnect envAllDone effLoggedIn).client.loginToken =
        effLoggedIn.client.loginToken :=
  ⟨by decide,
    ((loginSession_lifecycle_amended envAllDone effLoggedIn 9 nameW).2.1 (by decide)).1,
    (loginSession_lifecycle_amended envAllDone effLoggedIn 9 nameW).2.2.1⟩

/-- C5 counterexample: a fatal send failure (the peer closed the connection
during `socket.send`) makes the send primitive report failure upward while the
client is left fully untouched — still marked socket-connected and still
`Connected` — refuting the claim that both the send and the receive primitives
disconnect the client on fatal failure. -/
theorem sendPacket_fatal_noDisconnect_counterexample :
    (sendPacket envSendFatal effConn CTSPMsg.Heartbeat).1 = false ∧
    (sendPacket envSendFatal effConn CTSPMsg.Heartbeat).2.client = effConn.client ∧
    effConn.client.socketConnected = true ∧
    effConn.client.state = State.Connected := by
  refine ⟨by decide, rfl, by decide, by decide⟩

/-- C5 (amended): only the bounded-retry receive primitive disconnects on a
fatal failure: when the receive outcome is fatal, `receiveDataFromServer`
reports failure and the client ends disconnected (`socketConnected` false,
state `Disconnected`); the send primitive never modifies the client at all,
reporting fatal failures upward without disconnecting. -/
theorem fatalFailure_disconnect_amended (env : Env) (e : Eff) (m : CTSPMsg)
    (hconn : e.client.socketConnected = true)
    (hfatal : recvPacket env = RecvOutcome.fatalDisconnect) :
    (receiveDataFromServer env e).1 = false ∧
    (receiveDataFromServer env e).2.client.socketConnected = false ∧
    (receiveDataFromServer env e).2.client.state = State.Disconnected ∧
    (sendPacket env e m).2.client = e.client := by
  have hd := disconnect_client env e
  unfold receiveDataFromServer
  rw [if_neg (by simp [hconn]), hfatal]
  exact ⟨rfl, by simp [hd], by simp [hd], sendPacket_client env e m⟩

/-- C5 witness: a connected client whose `socket.receive` reports a hard error
is disconnected by the receive path before the failure is reported, while the
send primitive in the same environment leaves the client untouched. -/
theorem fatalFailure_disconnect_amended_witness :
    effConn.client.socketConnected = true ∧
    (receiveDataFromServer envRecvFatal effConn).1 = false ∧
    (receiveDataFromServer envRecvFatal effConn).2.client.state = State.Disconnected ∧
    (sendPacket envRecvFatal effConn CTSPMsg.Heartbeat).2.client = effConn.client :=
  ⟨by decide,
    (fatalFailure_disconnect_amended envRecvFatal effConn CTSPMsg.Heartbeat
        (by decide) (by decide)).1,
    (fatalFailure_disconnect_amended envRecvFatal effConn CTSPMsg.Heartbeat
        (by decide) (by decide)).2.2.1,
    (fatalFailure_disconnect_amended envRecvFatal effConn CTSPMsg.Heartbeat
        (by decide) (by decide)).2.2.2⟩

/-- C6 counterexample: a client whose construction failed at the Steam ticket
step (state `InitError`, valid server address) reaches `Connected` with one
public `connect()` call in a working network environment, refuting the claim
that no sequence of public API calls from `InitError` can reach `Connecting`,
`Connected`, or `LoggedIn`. -/
theorem initError_connect_counterexample :
    (construct ienvNoTicket envAllDone psk0).client.state = State.InitError ∧
    (connect envAllDone (construct ienvNoTicket envAllDone psk0)).1 = true ∧
    (connect envAllDone (construct ienvNoTicket envAllDone psk0)).2.client.state =
      State.Connected := by
  decide

/-- C6 (amended): `InitError` is not terminal through the public API — the
constructor does stop at `InitError` without attempting a connection, but
`connect()` performs no `InitError` check: called on such a client it
immediately transitions to `Connecting` and, whenever the transport succeeds,
returns true in state `Connected`. -/
theorem initError_not_terminal_amended (ienv : InitEnv) (env : Env)
    (ps : SodiumPSKeys) (hip : ienv.serverIpValid = true)
    (htk : ienv.ticketOk = false) (hc : env.connectOk = true)
    (hsend : ∀ i j, env.sendStatus i j = SocketStatus.Done) :
    (construct ienv env ps).client.state = State.InitError ∧
    (connect env (construct ienv env ps)).1 = true ∧
    (connect env (construct ienv env ps)).2.client.state = State.Connected := by
  have hsp : ∀ i, sendPacketRecursive (env.sendStatus i) 0 = true := by
    intro i
    simp [sendPacketRecursive, sendPacketGo, hsend i 0]
  have hcon : construct ienv env ps = setState (initialEff ps) State.InitError := by
    unfold construct
    rw [if_neg (by simp [hip]), if_pos htk]
  rw [hcon]
  refine ⟨by simp [setState, initialEff, initialClient], ?_, ?_⟩ <;>
    simp [connect, initializeTcpSocket, sendHeartbeat, sendPublicKey,
      sendUnencrypted, sendPacket, setState, addEventE, initialEff,
      initialClient, hc, hsp]

/-- C6 witness: the amended theorem instantiated on the concrete failed
construction and the all-successful environment. -/
theorem initError_not_terminal_amended_witness :
    ienvNoTicket.ticketOk = false ∧
    (construct ienvNoTicket envAllDone psk0).client.state = State.InitError ∧
    (connect envAllDone (construct ienvNoTicket envAllDone psk0)).1 = true :=
  ⟨by decide,
    (initError_not_terminal_amended ienvNoTicket envAllDone psk0 (by decide)
        (by decide) (by decide) (fun _ _ => rfl)).1,
    (initError_not_terminal_amended ienvNoTicket envAllDone psk0 (by decide)
        (by decide) (by decide) (fun _ _ => rfl)).2.1⟩

end HexagonClient
